import Mathlib

/-!
Verification of the xtgen code-generation core (`src/xtgen/models.py` and
`src/xtgen/generators.py`).

The Python code is shallowly embedded: pure string-building functions become
Lean functions over `String`; dictionary lookups become `List.lookup` over
association lists; Python code that raises `AudioTypeError` becomes a
function returning `Except String _`, the error payload being the formatted
message the Python code would raise with.  Python reprs of string lists
(used inside error messages, e.g. `['float', 'symbol', 'anything']`) are
rendered by `pyStrList` below.
-/

namespace XtGen

/-- Rendering of a Python list-of-strings repr, quote-per-element and
comma-separated, as it appears interpolated in the error messages. -/
def pyQuotedCommaSep : List String → String
  | [] => ""
  | [s] => "\x27" ++ s ++ "\x27"
  | s :: rest => "\x27" ++ s ++ "\x27" ++ ", " ++ pyQuotedCommaSep rest

/-- `str(list_of_strings)` in Python: brackets around the quoted elements. -/
def pyStrList (xs : List String) : String :=
  "[" ++ pyQuotedCommaSep xs ++ "]"

/-- `models.c_type`: generate C type name from audio type. -/
def c_type (type_name : String) : String := "t_" ++ type_name

namespace TypeMapper

/-- `TypeMapper.TYPE_MAPPINGS`: audio types to PureData API constants. -/
def TYPE_MAPPINGS : List (String × String) :=
  [("float", "A_DEFFLOAT"), ("symbol", "A_DEFSYMBOL"), ("anything", "A_GIMME")]

/-- `TypeMapper.FUNC_TYPE_ARGS`: audio types to C function argument strings. -/
def FUNC_TYPE_ARGS : List (String × String) :=
  [("float", "t_floatarg f"), ("symbol", "t_symbol *s"),
   ("anything", "t_symbol *s, int argc, t_atom *argv")]

/-- The `AudioTypeError` message raised by `get_pd_mapping` on a miss. -/
def pd_mapping_error (type_name : String) : String :=
  "Unknown type mapping for \x27" ++ type_name ++ "\x27. Valid types: " ++
    pyStrList (TYPE_MAPPINGS.map Prod.fst)

/-- `TypeMapper.get_pd_mapping`: PureData API constant for an audio type,
or an `AudioTypeError` when the type is not in `TYPE_MAPPINGS`. -/
def get_pd_mapping (type_name : String) : Except String String :=
  match TYPE_MAPPINGS.lookup type_name with
  | some v => .ok v
  | none => .error (pd_mapping_error type_name)

/-- The `AudioTypeError` message raised by `get_func_arg` on a miss. -/
def func_arg_error (type_name : String) : String :=
  "Unknown function argument type \x27" ++ type_name ++ "\x27. Valid types: " ++
    pyStrList (FUNC_TYPE_ARGS.map Prod.fst)

/-- `TypeMapper.get_func_arg`: C function argument string for an audio type,
or an `AudioTypeError` when the type is not in `FUNC_TYPE_ARGS`. -/
def get_func_arg (type_name : String) : Except String String :=
  match FUNC_TYPE_ARGS.lookup type_name with
  | some v => .ok v
  | none => .error (func_arg_error type_name)

end TypeMapper

/-- `models.Param`, restricted to the fields the argument builders read
(`build_constructor_args` / `build_type_signature` only access `.type`). -/
structure Param where
  name : String
  type : String
deriving DecidableEq

namespace ArgumentBuilder

/-- The loop body of `build_constructor_args` / `build_method_args`:
`for i, arg in enumerate(...): type_args.append(get_func_arg(arg) + str(i))`,
propagating the first `AudioTypeError` raised by `get_func_arg`. -/
def buildFragments : List String → Nat → Except String (List String)
  | [], _ => .ok []
  | t :: rest, i =>
    match TypeMapper.get_func_arg t with
    | .error e => .error e
    | .ok f =>
      match buildFragments rest (i + 1) with
      | .error e => .error e
      | .ok more => .ok ((f ++ toString i) :: more)

/-- The loop body of `build_type_signature` / `generate_message_addmethod`:
`for arg in args: mappings.append(get_pd_mapping(arg.type))`, propagating the
first `AudioTypeError` raised by `get_pd_mapping`. -/
def buildMappings : List String → Except String (List String)
  | [] => .ok []
  | t :: rest =>
    match TypeMapper.get_pd_mapping t with
    | .error e => .error e
    | .ok m =>
      match buildMappings rest with
      | .error e => .error e
      | .ok more => .ok (m :: more)

/-- `ArgumentBuilder.build_constructor_args`. -/
def build_constructor_args (args : List Param) : Except String String :=
  if args.length = 0 then .ok "void"
  else if args.length ≤ 6 then
    match buildFragments (args.map Param.type) 0 with
    | .error e => .error e
    | .ok type_args => .ok (String.intercalate ", " type_args)
  else .ok "t_symbol *s, int argc, t_atom *argv"

/-- `ArgumentBuilder.build_type_signature`. -/
def build_type_signature (args : List Param) : Except String String :=
  if args.length = 0 then .ok ", 0"
  else if args.length ≤ 6 then
    match buildMappings (args.map Param.type) with
    | .error e => .error e
    | .ok mappings => .ok (String.intercalate ", " mappings ++ ", 0")
  else .ok ("A_GIMME" ++ ", 0")

/-- `ArgumentBuilder.build_method_args`. -/
def build_method_args (external_type : String) (params : List String) :
    Except String String :=
  if params.length = 0 then .ok (external_type ++ " *x")
  else if params = ["list"] ∨ params.length > 6 then
    .ok (external_type ++ " *x" ++ ", t_symbol *s, int argc, t_atom *argv")
  else
    match buildFragments params 0 with
    | .error e => .error e
    | .ok type_args =>
      .ok (external_type ++ " *x" ++ ", " ++ String.intercalate ", " type_args)

end ArgumentBuilder

namespace CodeGenerator

/-- `CodeGenerator.generate_class_addmethod`. -/
def generate_class_addmethod (external_name _method_name method_type : String) :
    String :=
  "class_add" ++ method_type ++ "(" ++ external_name ++ "_class, " ++
    external_name ++ "_" ++ method_type ++ ")"

/-- The `prefix` local of `generate_message_addmethod`: the part of the
`class_addmethod` call naming the class, the function and the symbol. -/
def message_addmethod_head (external_name method_name : String) : String :=
  "class_addmethod(" ++ external_name ++ "_class, (t_method)" ++ external_name ++
    "_" ++ method_name ++ ", gensym(\"" ++ method_name ++ "\")"

/-- `CodeGenerator.generate_message_addmethod`. -/
def generate_message_addmethod (external_name method_name : String)
    (params : List String) : Except String String :=
  if params.length = 0 then
    .ok (message_addmethod_head external_name method_name ++ ", 0)")
  else if params = ["list"] ∨ params.length > 6 then
    .ok (message_addmethod_head external_name method_name ++ ", A_GIMME, 0)")
  else
    match ArgumentBuilder.buildMappings params with
    | .error e => .error e
    | .ok mappings =>
      .ok (message_addmethod_head external_name method_name ++ ", " ++
        String.intercalate ", " mappings ++ ", 0)")

/-- `CodeGenerator.generate_creator_call`.  `alias_name = none` models Python
`None`; the `not alias` truthiness test holds for `None` and for `""`. -/
def generate_creator_call (external_name : String) (alias_name : Option String)
    (type_signature : String) : String :=
  match alias_name with
  | none => ""
  | some a =>
    if a = "" ∨ a = external_name then ""
    else
      "class_addcreator((t_newmethod)" ++ external_name ++ "_new, gensym(\"" ++
        a ++ "\"), " ++ type_signature ++ ")"

end CodeGenerator

/-- The `AudioTypeError` message of `AbstractType.__post_init__`. -/
def invalid_type_error (name : String) (valid : List String) : String :=
  "Invalid type \x27" ++ name ++ "\x27. Valid types: " ++ pyStrList valid

/-- `models.ScalarType` (a validated `AbstractType`): only the `name` field
survives construction. -/
structure ScalarType where
  name : String
deriving DecidableEq

/-- `ScalarType.VALID_TYPES`. -/
def ScalarType.VALID_TYPES : List String :=
  ["bang", "float", "symbol", "pointer", "signal"]

/-- Constructing a `ScalarType`: `__post_init__` raises `AudioTypeError` when
the name is outside `VALID_TYPES`. -/
def mkScalarType (name : String) : Except String ScalarType :=
  if name ∈ ScalarType.VALID_TYPES then .ok ⟨name⟩
  else .error (invalid_type_error name ScalarType.VALID_TYPES)

/-- `ScalarType.c_type` property. -/
def ScalarType.c_type (t : ScalarType) : String := XtGen.c_type t.name

/-- The `type_args` dict local to `ScalarType.type_method_arg`. -/
def ScalarType.TYPE_ARGS : List (String × String) :=
  [("bang", ""), ("float", "t_floatarg f"), ("int", "t_floatarg f"),
   ("symbol", "t_symbol *s"), ("pointer", "t_gpointer *pt")]

/-- `ScalarType.type_method_arg` property: C function argument for the type,
or `AudioTypeError` when the name has no entry in the dict. -/
def ScalarType.type_method_arg (t : ScalarType) : Except String String :=
  match ScalarType.TYPE_ARGS.lookup t.name with
  | some v => .ok v
  | none =>
    .error ("No type method argument defined for \x27" ++ t.name ++ "\x27")

/-- `models.CompoundType` (a validated `AbstractType`). -/
structure CompoundType where
  name : String
deriving DecidableEq

/-- `CompoundType.VALID_TYPES`. -/
def CompoundType.VALID_TYPES : List String := ["list", "anything"]

/-- Constructing a `CompoundType`: `__post_init__` raises `AudioTypeError`
when the name is outside `VALID_TYPES`. -/
def mkCompoundType (name : String) : Except String CompoundType :=
  if name ∈ CompoundType.VALID_TYPES then .ok ⟨name⟩
  else .error (invalid_type_error name CompoundType.VALID_TYPES)

/-- `CompoundType.c_type` property: raises for `anything`. -/
def CompoundType.c_type (t : CompoundType) : Except String String :=
  if t.name = "anything" then
    .error "C type not available for \x27anything\x27 type"
  else .ok (XtGen.c_type t.name)

/-- `models.TypeMethod`: `parent_type` stands for `self.parent.type`
(the external's C type name), which is all `args` reads of the parent. -/
structure TypeMethod where
  parent_type : String
  type : String
  doc : String := ""
deriving DecidableEq

/-- `TypeMethod.VALID_TYPES`. -/
def TypeMethod.VALID_TYPES : List String :=
  ["bang", "float", "int", "symbol", "pointer", "list", "anything"]

/-- The `type_args_map` dict local to `TypeMethod.args`. -/
def TypeMethod.TYPE_ARGS_MAP : List (String × String) :=
  [("bang", ""), ("float", ", t_floatarg f"), ("int", ", t_floatarg f"),
   ("symbol", ", t_symbol *s"), ("pointer", ", t_gpointer *pt"),
   ("list", ", t_symbol *s, int argc, t_atom *argv"),
   ("anything", ", t_symbol *s, int argc, t_atom *argv")]

/-- `TypeMethod.args` property: `base_arg` plus the per-type tail, or
`AudioTypeError` when the type has no entry in the dict. -/
def TypeMethod.args (m : TypeMethod) : Except String String :=
  match TypeMethod.TYPE_ARGS_MAP.lookup m.type with
  | some v => .ok (m.parent_type ++ " *x" ++ v)
  | none =>
    .error ("Argument generation not implemented for type \x27" ++ m.type ++ "\x27")

/-- `External.__post_init__` alias defaulting: a missing alias becomes the
external's name. -/
def External.default_alias (name : String) (alias_name : Option String) :
    Option String :=
  match alias_name with
  | none => some name
  | some a => some a


theorem buildFragments_total (types : List String) :
    ∀ (start : Nat), (∀ t ∈ types, ∃ v, TypeMapper.get_func_arg t = .ok v) →
    ∃ frags, ArgumentBuilder.buildFragments types start = .ok frags := by
  induction types with
  | nil => exact fun start _ => ⟨[], rfl⟩
  | cons t rest ih =>
    intro start h
    obtain ⟨v, hv⟩ := h t (by simp)
    obtain ⟨more, hmore⟩ := ih (start + 1) (fun u hu => h u (by simp [hu]))
    exact ⟨(v ++ toString start) :: more,
      by simp [ArgumentBuilder.buildFragments, hv, hmore]⟩

theorem buildFragments_get (types : List String) :
    ∀ (start : Nat) (frags : List String),
    ArgumentBuilder.buildFragments types start = .ok frags →
    frags.length = types.length ∧
    ∀ (i : Nat) (t : String), types[i]? = some t → ∃ f,
      TypeMapper.get_func_arg t = .ok f ∧
      frags[i]? = some (f ++ toString (start + i)) := by
  induction types with
  | nil =>
    intro start frags h
    simp [ArgumentBuilder.buildFragments] at h
    subst h
    simp
  | cons t rest ih =>
    intro start frags h
    cases hv : TypeMapper.get_func_arg t with
    | error e => simp [ArgumentBuilder.buildFragments, hv] at h
    | ok f =>
      cases hm : ArgumentBuilder.buildFragments rest (start + 1) with
      | error e => simp [ArgumentBuilder.buildFragments, hv, hm] at h
      | ok more =>
        simp [ArgumentBuilder.buildFragments, hv, hm] at h
        subst h
        obtain ⟨hlen, hget⟩ := ih (start + 1) more hm
        refine ⟨by simp [hlen], ?_⟩
        intro i u hu
        cases i with
        | zero =>
          simp at hu
          subst hu
          exact ⟨f, hv, by simp⟩
        | succ j =>
          simp at hu ⊢
          obtain ⟨g, hg, hg2⟩ := hget j u hu
          have harith : start + 1 + j = start + (j + 1) := by omega
          rw [harith] at hg2
          exact ⟨g, hg, hg2⟩

theorem buildMappings_total (types : List String) :
    (∀ t ∈ types, ∃ v, TypeMapper.get_pd_mapping t = .ok v) →
    ∃ tags, ArgumentBuilder.buildMappings types = .ok tags := by
  induction types with
  | nil => exact fun _ => ⟨[], rfl⟩
  | cons t rest ih =>
    intro h
    obtain ⟨v, hv⟩ := h t (by simp)
    obtain ⟨more, hmore⟩ := ih (fun u hu => h u (by simp [hu]))
    exact ⟨v :: more, by simp [ArgumentBuilder.buildMappings, hv, hmore]⟩

theorem buildMappings_get (types : List String) :
    ∀ (tags : List String),
    ArgumentBuilder.buildMappings types = .ok tags →
    tags.length = types.length ∧
    ∀ (i : Nat) (t : String), types[i]? = some t → ∃ m,
      TypeMapper.get_pd_mapping t = .ok m ∧ tags[i]? = some m := by
  induction types with
  | nil =>
    intro tags h
    simp [ArgumentBuilder.buildMappings] at h
    subst h
    simp
  | cons t rest ih =>
    intro tags h
    cases hv : TypeMapper.get_pd_mapping t with
    | error e => simp [ArgumentBuilder.buildMappings, hv] at h
    | ok m =>
      cases hm : ArgumentBuilder.buildMappings rest with
      | error e => simp [ArgumentBuilder.buildMappings, hv, hm] at h
      | ok more =>
        simp [ArgumentBuilder.buildMappings, hv, hm] at h
        subst h
        obtain ⟨hlen, hget⟩ := ih more hm
        refine ⟨by simp [hlen], ?_⟩
        intro i u hu
        cases i with
        | zero =>
          simp at hu
          subst hu
          exact ⟨m, hv, by simp⟩
        | succ j =>
          simp at hu ⊢
          exact hget j u hu

/-- C1: `build_method_args` with params exactly `["list"]`, or with more than
6 params, returns the owner self-reference plus the generic catch-all triple;
params `["list", "float"]` does not take the shortcut and instead enters the
per-position ordinal-suffix branch, where resolving `list` yields the
type-mapper lookup error. -/
theorem build_method_args_list_shortcut (external_type : String)
    (params : List String) :
    ArgumentBuilder.build_method_args external_type ["list"]
      = .ok (external_type ++ " *x" ++ ", t_symbol *s, int argc, t_atom *argv")
    ∧ (params.length > 6 →
        ArgumentBuilder.build_method_args external_type params
          = .ok (external_type ++ " *x" ++ ", t_symbol *s, int argc, t_atom *argv"))
    ∧ ArgumentBuilder.build_method_args external_type ["list", "float"]
      = .error (TypeMapper.func_arg_error "list") := by
  refine ⟨rfl, ?_, rfl⟩
  intro h
  have h0 : ¬ params.length = 0 := by omega
  unfold ArgumentBuilder.build_method_args
  rw [if_neg h0, if_pos (Or.inr h)]

/-- Witness for C1 at a concrete 7-parameter list. -/
theorem build_method_args_list_shortcut_witness :
    (["float", "float", "float", "float", "float", "float", "float"] :
        List String).length > 6
    ∧ ArgumentBuilder.build_method_args "t_counter"
        ["float", "float", "float", "float", "float", "float", "float"]
      = .ok ("t_counter" ++ " *x" ++ ", t_symbol *s, int argc, t_atom *argv") :=
  ⟨by decide,
    (build_method_args_list_shortcut "t_counter"
      ["float", "float", "float", "float", "float", "float", "float"]).2.1
      (by decide)⟩

/-- C2: `build_constructor_args` returns the no-argument sentinel `"void"`
for an empty list; for 1 to 6 arguments it returns each argument's type
fragment suffixed by its zero-based ordinal, joined by `", "` in list order;
for more than 6 arguments it returns the generic catch-all fragment
regardless of the argument types. -/
theorem build_constructor_args_spec (args : List Param) :
    ArgumentBuilder.build_constructor_args [] = .ok "void"
    ∧ (args.length > 6 →
        ArgumentBuilder.build_constructor_args args
          = .ok "t_symbol *s, int argc, t_atom *argv")
    ∧ (0 < args.length → args.length ≤ 6 →
        (∀ a ∈ args, ∃ v, TypeMapper.get_func_arg a.type = .ok v) →
        ∃ frags,
          ArgumentBuilder.build_constructor_args args
            = .ok (String.intercalate ", " frags)
          ∧ frags.length = args.length
          ∧ ∀ (i : Nat) (a : Param), args[i]? = some a → ∃ f,
              TypeMapper.get_func_arg a.type = .ok f
              ∧ frags[i]? = some (f ++ toString i)) := by
  refine ⟨rfl, ?_, ?_⟩
  · intro h
    have h0 : ¬ args.length = 0 := by omega
    have h6 : ¬ args.length ≤ 6 := by omega
    unfold ArgumentBuilder.build_constructor_args
    rw [if_neg h0, if_neg h6]
  · intro hpos hle hres
    obtain ⟨frags, hfrags⟩ := buildFragments_total (args.map Param.type) 0
      (fun t ht => by
        obtain ⟨a, ha, rfl⟩ := List.mem_map.mp ht
        exact hres a ha)
    refine ⟨frags, ?_, ?_, ?_⟩
    · have h0 : ¬ args.length = 0 := by omega
      unfold ArgumentBuilder.build_constructor_args
      rw [if_neg h0, if_pos hle, hfrags]
    · have hlen := (buildFragments_get (args.map Param.type) 0 frags hfrags).1
      simpa using hlen
    · intro i a ha
      have hmap : (args.map Param.type)[i]? = some a.type := by
        simp [List.getElem?_map, ha]
      obtain ⟨f, hf, hf2⟩ :=
        (buildFragments_get (args.map Param.type) 0 frags hfrags).2 i a.type hmap
      exact ⟨f, hf, by simpa using hf2⟩

/-- Witness for C2 at one float and one symbol argument. -/
theorem build_constructor_args_spec_witness :
    0 < ([⟨"step", "float"⟩, ⟨"label", "symbol"⟩] : List Param).length
    ∧ ∃ frags,
        ArgumentBuilder.build_constructor_args
            [⟨"step", "float"⟩, ⟨"label", "symbol"⟩]
          = .ok (String.intercalate ", " frags)
        ∧ frags.length
            = ([⟨"step", "float"⟩, ⟨"label", "symbol"⟩] : List Param).length
        ∧ ∀ (i : Nat) (a : Param),
            ([⟨"step", "float"⟩, ⟨"label", "symbol"⟩] : List Param)[i]? = some a →
            ∃ f, TypeMapper.get_func_arg a.type = .ok f
              ∧ frags[i]? = some (f ++ toString i) :=
  ⟨by decide,
    (build_constructor_args_spec [⟨"step", "float"⟩, ⟨"label", "symbol"⟩]).2.2
      (by decide) (by decide)
      (by
        intro a ha
        simp only [List.mem_cons, List.not_mem_nil, or_false] at ha
        rcases ha with rfl | rfl
        · exact ⟨"t_floatarg f", rfl⟩
        · exact ⟨"t_symbol *s", rfl⟩)⟩

/-- C3: `build_type_signature` returns the sentinel suffix `", 0"` alone for
an empty list; for 1 to 6 arguments it returns each argument's registration
tag in order joined by `", "` and terminated by the sentinel suffix; for more
than 6 arguments it returns the generic catch-all tag plus the sentinel
suffix. -/
theorem build_type_signature_spec (args : List Param) :
    ArgumentBuilder.build_type_signature [] = .ok ", 0"
    ∧ (args.length > 6 →
        ArgumentBuilder.build_type_signature args = .ok ("A_GIMME" ++ ", 0"))
    ∧ (0 < args.length → args.length ≤ 6 →
        (∀ a ∈ args, ∃ v, TypeMapper.get_pd_mapping a.type = .ok v) →
        ∃ tags,
          ArgumentBuilder.build_type_signature args
            = .ok (String.intercalate ", " tags ++ ", 0")
          ∧ tags.length = args.length
          ∧ ∀ (i : Nat) (a : Param), args[i]? = some a → ∃ m,
              TypeMapper.get_pd_mapping a.type = .ok m
              ∧ tags[i]? = some m) := by
  refine ⟨rfl, ?_, ?_⟩
  · intro h
    have h0 : ¬ args.length = 0 := by omega
    have h6 : ¬ args.length ≤ 6 := by omega
    unfold ArgumentBuilder.build_type_signature
    rw [if_neg h0, if_neg h6]
  · intro hpos hle hres
    obtain ⟨tags, htags⟩ := buildMappings_total (args.map Param.type)
      (fun t ht => by
        obtain ⟨a, ha, rfl⟩ := List.mem_map.mp ht
        exact hres a ha)
    refine ⟨tags, ?_, ?_, ?_⟩
    · have h0 : ¬ args.length = 0 := by omega
      unfold ArgumentBuilder.build_type_signature
      rw [if_neg h0, if_pos hle, htags]
    · have hlen := (buildMappings_get (args.map Param.type) tags htags).1
      simpa using hlen
    · intro i a ha
      have hmap : (args.map Param.type)[i]? = some a.type := by
        simp [List.getElem?_map, ha]
      obtain ⟨m, hm, hm2⟩ :=
        (buildMappings_get (args.map Param.type) tags htags).2 i a.type hmap
      exact ⟨m, hm, hm2⟩

/-- Witness for C3 at one float argument, and at the empty list. -/
theorem build_type_signature_spec_witness :
    0 < ([⟨"step", "float"⟩] : List Param).length
    ∧ ∃ tags,
        ArgumentBuilder.build_type_signature [⟨"step", "float"⟩]
          = .ok (String.intercalate ", " tags ++ ", 0")
        ∧ tags.length = ([⟨"step", "float"⟩] : List Param).length
        ∧ ∀ (i : Nat) (a : Param),
            ([⟨"step", "float"⟩] : List Param)[i]? = some a →
            ∃ m, TypeMapper.get_pd_mapping a.type = .ok m
              ∧ tags[i]? = some m :=
  ⟨by decide,
    (build_type_signature_spec [⟨"step", "float"⟩]).2.2
      (by decide) (by decide)
      (by
        intro a ha
        simp only [List.mem_cons, List.not_mem_nil, or_false] at ha
        rcases ha with rfl
        exact ⟨"A_DEFFLOAT", rfl⟩)⟩

/-- C4: `generate_creator_call` returns the empty string when the alias is
unset (Python `None` or the falsy `""`) or equal to the external's name —
including the default case, since `External.__post_init__` turns a missing
alias into the external's name — and otherwise returns a non-empty
registration string containing the alias. -/
theorem generate_creator_call_spec (name sig : String)
    (alias_name : Option String) :
    CodeGenerator.generate_creator_call name none sig = ""
    ∧ CodeGenerator.generate_creator_call name (some "") sig = ""
    ∧ CodeGenerator.generate_creator_call name
        (External.default_alias name none) sig = ""
    ∧ CodeGenerator.generate_creator_call name (some name) sig = ""
    ∧ (∀ a, alias_name = some a → a ≠ "" → a ≠ name →
        CodeGenerator.generate_creator_call name alias_name sig ≠ ""
        ∧ ∃ p q,
            CodeGenerator.generate_creator_call name alias_name sig
              = p ++ a ++ q) := by
  refine ⟨rfl, by simp [CodeGenerator.generate_creator_call],
    by simp [External.default_alias, CodeGenerator.generate_creator_call],
    by simp [CodeGenerator.generate_creator_call], ?_⟩
  rintro a rfl hne hnn
  have hcond : ¬ (a = "" ∨ a = name) := by tauto
  have heq : CodeGenerator.generate_creator_call name (some a) sig
      = "class_addcreator((t_newmethod)" ++ name ++ "_new, gensym(\"" ++ a ++
        "\"), " ++ sig ++ ")" := by
    simp only [CodeGenerator.generate_creator_call]
    rw [if_neg hcond]
  constructor
  · rw [heq]
    intro hcontra
    have hlen := congrArg String.length hcontra
    simp only [String.length_append] at hlen
    have h30 : ("class_addcreator((t_newmethod)" : String).length = 30 := rfl
    have h0 : ("" : String).length = 0 := rfl
    omega
  · refine ⟨"class_addcreator((t_newmethod)" ++ name ++ "_new, gensym(\"",
      "\"), " ++ sig ++ ")", ?_⟩
    rw [heq]
    simp [String.append_assoc]

/-- Witness for C4 at a distinct, non-empty alias. -/
theorem generate_creator_call_spec_witness :
    CodeGenerator.generate_creator_call "counter" (some "othername") ", 0" ≠ ""
    ∧ ∃ p q, CodeGenerator.generate_creator_call "counter" (some "othername")
        ", 0" = p ++ "othername" ++ q :=
  (generate_creator_call_spec "counter" ", 0" (some "othername")).2.2.2.2
    "othername" rfl (by decide) (by decide)

/-- C5: `TypeMethod.args` per-type resolution: `bang` yields the
self-reference only; `float` and `int` add one numeric argument with no
ordinal suffix; `symbol` adds one symbol reference; `pointer` adds one
pointer reference; `list` and `anything` add the generic catch-all triple. -/
theorem type_method_args_per_type (pt : String) :
    TypeMethod.args ⟨pt, "bang", ""⟩ = .ok (pt ++ " *x")
    ∧ TypeMethod.args ⟨pt, "float", ""⟩ = .ok (pt ++ " *x" ++ ", t_floatarg f")
    ∧ TypeMethod.args ⟨pt, "int", ""⟩ = .ok (pt ++ " *x" ++ ", t_floatarg f")
    ∧ TypeMethod.args ⟨pt, "symbol", ""⟩ = .ok (pt ++ " *x" ++ ", t_symbol *s")
    ∧ TypeMethod.args ⟨pt, "pointer", ""⟩
        = .ok (pt ++ " *x" ++ ", t_gpointer *pt")
    ∧ TypeMethod.args ⟨pt, "list", ""⟩
        = .ok (pt ++ " *x" ++ ", t_symbol *s, int argc, t_atom *argv")
    ∧ TypeMethod.args ⟨pt, "anything", ""⟩
        = .ok (pt ++ " *x" ++ ", t_symbol *s, int argc, t_atom *argv") := by
  refine ⟨?_, rfl, rfl, rfl, rfl, rfl, rfl⟩
  have h : TypeMethod.args ⟨pt, "bang", ""⟩ = .ok (pt ++ " *x" ++ "") := rfl
  rw [h, String.append_empty]

/-- C9: `CompoundType.c_type` raises for `anything` and yields `t_list` for
`list`. -/
theorem compound_c_type_spec :
    mkCompoundType "anything" = .ok ⟨"anything"⟩
    ∧ CompoundType.c_type ⟨"anything"⟩
        = .error "C type not available for \x27anything\x27 type"
    ∧ mkCompoundType "list" = .ok ⟨"list"⟩
    ∧ CompoundType.c_type ⟨"list"⟩ = .ok "t_list" :=
  ⟨rfl, rfl, rfl, rfl⟩

/-- C10: constructing a `ScalarType` named `signal` succeeds, but its
`type_method_arg` raises an `AudioTypeError`, since `signal` has no entry in
the per-type handler-argument table. -/
theorem scalar_signal_type_method_arg :
    mkScalarType "signal" = .ok ⟨"signal"⟩
    ∧ ScalarType.type_method_arg ⟨"signal"⟩
        = .error ("No type method argument defined for \x27signal\x27") :=
  ⟨rfl, rfl⟩

theorem pyQuotedCommaSep_contains {v : String} :
    ∀ (xs : List String), v ∈ xs →
    ∃ p q, pyQuotedCommaSep xs = p ++ v ++ q := by
  intro xs
  induction xs with
  | nil => intro h; cases h
  | cons s rest ih =>
    intro h
    cases rest with
    | nil =>
      have hv : v = s := by simpa using h
      subst hv
      exact ⟨"\x27", "\x27", rfl⟩
    | cons r rs =>
      rcases List.mem_cons.mp h with rfl | hmem
      · refine ⟨"\x27", "\x27" ++ ", " ++ pyQuotedCommaSep (r :: rs), ?_⟩
        simp [pyQuotedCommaSep, String.append_assoc]
      · obtain ⟨p, q, hpq⟩ := ih hmem
        refine ⟨"\x27" ++ s ++ "\x27" ++ ", " ++ p, q, ?_⟩
        simp [pyQuotedCommaSep, hpq, String.append_assoc]

theorem invalid_type_error_contains (s v : String) (valid : List String)
    (hv : v ∈ valid) :
    ∃ p q, invalid_type_error s valid = p ++ v ++ q := by
  obtain ⟨p, q, hpq⟩ := pyQuotedCommaSep_contains valid hv
  refine ⟨"Invalid type \x27" ++ s ++ "\x27. Valid types: " ++ ("[" ++ p),
    q ++ "]", ?_⟩
  simp [invalid_type_error, pyStrList, hpq, String.append_assoc]

/-- C6: constructing a `ScalarType` or `CompoundType` succeeds exactly on the
family's enumerated set, reading back the original name; any other name
yields the type-validation error, whose message names the rejected value and
lists every member of the valid set. -/
theorem type_construction_validation (s : String) :
    (s ∈ ScalarType.VALID_TYPES → mkScalarType s = .ok ⟨s⟩)
    ∧ (s ∉ ScalarType.VALID_TYPES →
        mkScalarType s = .error (invalid_type_error s ScalarType.VALID_TYPES)
        ∧ (∃ p q, invalid_type_error s ScalarType.VALID_TYPES = p ++ s ++ q)
        ∧ ∀ v ∈ ScalarType.VALID_TYPES,
            ∃ p q, invalid_type_error s ScalarType.VALID_TYPES = p ++ v ++ q)
    ∧ (s ∈ CompoundType.VALID_TYPES → mkCompoundType s = .ok ⟨s⟩)
    ∧ (s ∉ CompoundType.VALID_TYPES →
        mkCompoundType s = .error (invalid_type_error s CompoundType.VALID_TYPES)
        ∧ (∃ p q, invalid_type_error s CompoundType.VALID_TYPES = p ++ s ++ q)
        ∧ ∀ v ∈ CompoundType.VALID_TYPES,
            ∃ p q, invalid_type_error s CompoundType.VALID_TYPES = p ++ v ++ q) := by
  refine ⟨?_, ?_, ?_, ?_⟩
  · intro h; unfold mkScalarType; rw [if_pos h]
  · intro h
    refine ⟨by unfold mkScalarType; rw [if_neg h], ?_, ?_⟩
    · exact ⟨"Invalid type \x27",
        "\x27. Valid types: " ++ pyStrList ScalarType.VALID_TYPES,
        by simp [invalid_type_error, String.append_assoc]⟩
    · intro v hv; exact invalid_type_error_contains s v _ hv
  · intro h; unfold mkCompoundType; rw [if_pos h]
  · intro h
    refine ⟨by unfold mkCompoundType; rw [if_neg h], ?_, ?_⟩
    · exact ⟨"Invalid type \x27",
        "\x27. Valid types: " ++ pyStrList CompoundType.VALID_TYPES,
        by simp [invalid_type_error, String.append_assoc]⟩
    · intro v hv; exact invalid_type_error_contains s v _ hv

/-- Witness for C6: a member and a non-member of each family. -/
theorem type_construction_validation_witness :
    mkScalarType "float" = .ok ⟨"float"⟩
    ∧ mkCompoundType "list" = .ok ⟨"list"⟩
    ∧ mkScalarType "list" = .error (invalid_type_error "list" ScalarType.VALID_TYPES)
    ∧ mkCompoundType "bang" = .error (invalid_type_error "bang" CompoundType.VALID_TYPES) :=
  ⟨(type_construction_validation "float").1 (by decide),
   (type_construction_validation "list").2.2.1 (by decide),
   ((type_construction_validation "list").2.1 (by decide)).1,
   ((type_construction_validation "bang").2.2.2 (by decide)).1⟩

theorem get_pd_mapping_ok_iff (t : String) :
    (∃ v, TypeMapper.get_pd_mapping t = .ok v)
      ↔ t ∈ ["float", "symbol", "anything"] := by
  by_cases h1 : t = "float"
  · subst h1
    simp [TypeMapper.get_pd_mapping, TypeMapper.TYPE_MAPPINGS, List.lookup]
  by_cases h2 : t = "symbol"
  · subst h2
    simp [TypeMapper.get_pd_mapping, TypeMapper.TYPE_MAPPINGS, List.lookup]
  by_cases h3 : t = "anything"
  · subst h3
    simp [TypeMapper.get_pd_mapping, TypeMapper.TYPE_MAPPINGS, List.lookup]
  · have b1 : (t == "float") = false := beq_eq_false_iff_ne.mpr h1
    have b2 : (t == "symbol") = false := beq_eq_false_iff_ne.mpr h2
    have b3 : (t == "anything") = false := beq_eq_false_iff_ne.mpr h3
    simp [TypeMapper.get_pd_mapping, TypeMapper.TYPE_MAPPINGS, List.lookup,
      b1, b2, b3, h1, h2, h3]

theorem get_func_arg_ok_iff (t : String) :
    (∃ v, TypeMapper.get_func_arg t = .ok v)
      ↔ t ∈ ["float", "symbol", "anything"] := by
  by_cases h1 : t = "float"
  · subst h1
    simp [TypeMapper.get_func_arg, TypeMapper.FUNC_TYPE_ARGS, List.lookup]
  by_cases h2 : t = "symbol"
  · subst h2
    simp [TypeMapper.get_func_arg, TypeMapper.FUNC_TYPE_ARGS, List.lookup]
  by_cases h3 : t = "anything"
  · subst h3
    simp [TypeMapper.get_func_arg, TypeMapper.FUNC_TYPE_ARGS, List.lookup]
  · have b1 : (t == "float") = false := beq_eq_false_iff_ne.mpr h1
    have b2 : (t == "symbol") = false := beq_eq_false_iff_ne.mpr h2
    have b3 : (t == "anything") = false := beq_eq_false_iff_ne.mpr h3
    simp [TypeMapper.get_func_arg, TypeMapper.FUNC_TYPE_ARGS, List.lookup,
      b1, b2, b3, h1, h2, h3]

/-- C7: the Type Mapper lookups succeed exactly on `float`, `symbol` and
`anything`, raising the lookup error on every other name; `pointer` passes
`ScalarType` construction yet both lookups raise — the failure only occurs
at lookup time, not at construction. -/
theorem type_mapper_domain (t : String) :
    ((∃ v, TypeMapper.get_pd_mapping t = .ok v)
      ↔ t ∈ ["float", "symbol", "anything"])
    ∧ ((∃ v, TypeMapper.get_func_arg t = .ok v)
      ↔ t ∈ ["float", "symbol", "anything"])
    ∧ (t ∉ ["float", "symbol", "anything"] →
        TypeMapper.get_pd_mapping t = .error (TypeMapper.pd_mapping_error t)
        ∧ TypeMapper.get_func_arg t = .error (TypeMapper.func_arg_error t))
    ∧ mkScalarType "pointer" = .ok ⟨"pointer"⟩
    ∧ TypeMapper.get_pd_mapping "pointer"
        = .error (TypeMapper.pd_mapping_error "pointer")
    ∧ TypeMapper.get_func_arg "pointer"
        = .error (TypeMapper.func_arg_error "pointer") := by
  refine ⟨get_pd_mapping_ok_iff t, get_func_arg_ok_iff t, ?_, rfl, rfl, rfl⟩
  intro h
  have h1 : ¬ t = "float" := fun hc => h (by simp [hc])
  have h2 : ¬ t = "symbol" := fun hc => h (by simp [hc])
  have h3 : ¬ t = "anything" := fun hc => h (by simp [hc])
  have b1 : (t == "float") = false := beq_eq_false_iff_ne.mpr h1
  have b2 : (t == "symbol") = false := beq_eq_false_iff_ne.mpr h2
  have b3 : (t == "anything") = false := beq_eq_false_iff_ne.mpr h3
  constructor
  · simp [TypeMapper.get_pd_mapping, TypeMapper.TYPE_MAPPINGS, List.lookup,
      b1, b2, b3]
  · simp [TypeMapper.get_func_arg, TypeMapper.FUNC_TYPE_ARGS, List.lookup,
      b1, b2, b3]

/-- Witness for C7 at `pointer`, which is outside the mapper's table. -/
theorem type_mapper_domain_witness :
    ("pointer" : String) ∉ (["float", "symbol", "anything"] : List String)
    ∧ TypeMapper.get_pd_mapping "pointer"
        = .error (TypeMapper.pd_mapping_error "pointer")
    ∧ TypeMapper.get_func_arg "pointer"
        = .error (TypeMapper.func_arg_error "pointer") :=
  ⟨by decide, (type_mapper_domain "pointer").2.2.1 (by decide)⟩

/-- C8: `generate_message_addmethod` emits the `class_addmethod` call naming
the class, the function `<external>_<name>` and the method symbol, then: the
terminator `0` alone when there are no parameters; the single `A_GIMME`
catch-all tag (then the terminator) when the parameter list is exactly
`["list"]` or longer than 6; and otherwise the per-parameter registration
tags from the Type Mapper, joined by `", "` and terminated by `0`. -/
theorem generate_message_addmethod_spec (external_name method_name : String)
    (params : List String) :
    CodeGenerator.message_addmethod_head external_name method_name
      = "class_addmethod(" ++ external_name ++ "_class, (t_method)" ++
          external_name ++ "_" ++ method_name ++ ", gensym(\"" ++
          method_name ++ "\")"
    ∧ CodeGenerator.generate_message_addmethod external_name method_name []
        = .ok (CodeGenerator.message_addmethod_head external_name method_name
            ++ ", 0)")
    ∧ (params = ["list"] ∨ params.length > 6 →
        CodeGenerator.generate_message_addmethod external_name method_name
            params
          = .ok (CodeGenerator.message_addmethod_head external_name method_name
              ++ ", A_GIMME, 0)"))
    ∧ (params ≠ [] → params ≠ ["list"] → params.length ≤ 6 →
        (∀ p ∈ params, ∃ v, TypeMapper.get_pd_mapping p = .ok v) →
        ∃ tags,
          CodeGenerator.generate_message_addmethod external_name method_name
              params
            = .ok (CodeGenerator.message_addmethod_head external_name
                method_name ++ ", " ++ String.intercalate ", " tags ++ ", 0)")
          ∧ tags.length = params.length
          ∧ ∀ (i : Nat) (p : String), params[i]? = some p → ∃ m,
              TypeMapper.get_pd_mapping p = .ok m ∧ tags[i]? = some m) := by
  refine ⟨rfl, rfl, ?_, ?_⟩
  · intro h
    have h0 : ¬ params.length = 0 := by
      rcases h with h | h
      · subst h; decide
      · omega
    unfold CodeGenerator.generate_message_addmethod
    rw [if_neg h0, if_pos h]
  · intro hne hnl hle hres
    have h0 : ¬ params.length = 0 := fun hc =>
      hne (List.length_eq_zero.mp hc)
    have hcond : ¬ (params = ["list"] ∨ params.length > 6) := by
      push_neg
      exact ⟨hnl, by omega⟩
    obtain ⟨tags, htags⟩ := buildMappings_total params hres
    refine ⟨tags, ?_, ?_, ?_⟩
    · unfold CodeGenerator.generate_message_addmethod
      rw [if_neg h0, if_neg hcond, htags]
    · exact (buildMappings_get params tags htags).1
    · exact (buildMappings_get params tags htags).2

/-- Witness for C8: the `["list"]` shortcut and a one-float method. -/
theorem generate_message_addmethod_spec_witness :
    CodeGenerator.generate_message_addmethod "counter" "bound" ["list"]
      = .ok (CodeGenerator.message_addmethod_head "counter" "bound"
          ++ ", A_GIMME, 0)")
    ∧ ∃ tags,
        CodeGenerator.generate_message_addmethod "counter" "set" ["float"]
          = .ok (CodeGenerator.message_addmethod_head "counter" "set"
              ++ ", " ++ String.intercalate ", " tags ++ ", 0)")
        ∧ tags.length = (["float"] : List String).length
        ∧ ∀ (i : Nat) (p : String), (["float"] : List String)[i]? = some p →
            ∃ m, TypeMapper.get_pd_mapping p = .ok m ∧ tags[i]? = some m :=
  ⟨(generate_message_addmethod_spec "counter" "bound" ["list"]).2.2.1
      (Or.inl rfl),
   (generate_message_addmethod_spec "counter" "set" ["float"]).2.2.2
      (by decide) (by decide) (by decide)
      (by
        intro p hp
        simp only [List.mem_cons, List.not_mem_nil, or_false] at hp
        subst hp
        exact ⟨"A_DEFFLOAT", rfl⟩)⟩

end XtGen
